import Mathlib

/-!
Verification of the field-extraction engine of `src/app.py`.

The engine searches a document's text with Python regular expressions
(`re.search`), condenses the single captured group by deleting all
whitespace, and builds one record per document mapping each registered
field name to the condensed capture or to the missing-sentinel "0".

The shallow embedding below models:
  * Python's `\s` (restricted to the ASCII whitespace characters that
    occur in these documents), `str.strip`, and the truthiness test
    `if not texto.strip()`;
  * a regular-expression abstract syntax covering exactly the constructs
    used by the 14 patterns in `PATRONES` (literals, character classes,
    concatenation, alternation, greedy `?`/`*`/`+`/`{m,}`/`{m,n}` over
    character classes, the lazy `[\s\S]*?`, and one capture group),
    with a backtracking matcher whose preference order follows Python's
    `re` engine (leftmost search position, leftmost alternative first,
    greedy longest-first / lazy shortest-first), so that `re.search`
    with `m.group(1)` becomes `searchCap`;
  * `extraer_campo`, the `CAMPOS` schema, the `PATRONES` registry, and
    the per-document / per-batch driving loop (lines 103-133 of
    `src/app.py`).  The loop's `try/except` around `extraer_campo` is
    modelled by running the loop over an explicit evaluator of type
    `String → Re → Except String String`; the real program instantiates
    it with `evalReal`, which never faults.
-/

/-- Python's `\s` on the ASCII range: space, tab, newline, carriage
return, vertical tab, form feed.  (The patterns and documents modelled
here contain no non-ASCII whitespace.) -/
def pySpace (c : Char) : Bool :=
  c = ' ' || c = '\t' || c = '\n' || c = '\r' || c = '\x0b' || c = '\x0c'

/-- Python `str.strip()` on a list of characters. -/
def pyStrip (s : List Char) : List Char :=
  ((s.dropWhile pySpace).reverse.dropWhile pySpace).reverse

/-- `re.sub(r"\s+", "", s)`: deleting every whitespace run is deleting
every whitespace character. -/
def condense (s : List Char) : List Char :=
  s.filter (fun c => !pySpace c)

/-- The truthiness test `not texto.strip()` of line 112. -/
def pyIsBlank (s : String) : Bool :=
  pyStrip s.data = []

/-- Regular-expression syntax covering the constructs used in
`PATRONES`.  Every quantified subexpression in those patterns is a
single character class, which the syntax reflects: quantifiers are
constructors over a class predicate. -/
inductive Re where
  | eps : Re
  | lit : Char → Re
  | cls : (Char → Bool) → Re
  | seq : Re → Re → Re
  | alt : Re → Re → Re
  | opt : Re → Re
  | starCls : (Char → Bool) → Re
  | lazyStarCls : (Char → Bool) → Re
  | plusCls : (Char → Bool) → Re
  | repAtLeast : (Char → Bool) → Nat → Re
  | repRange : (Char → Bool) → Nat → Nat → Re
  | group : Re → Re

/-- Concatenation of a list of regexes. -/
def seqs (l : List Re) : Re :=
  l.foldr Re.seq Re.eps

/-- A literal string as a regex. -/
def reStr (s : String) : Re :=
  s.data.foldr (fun c acc => Re.seq (Re.lit c) acc) Re.eps

/-- Length of the maximal leading run of characters satisfying `p`. -/
def takeRun (p : Char → Bool) : List Char → Nat
  | [] => 0
  | x :: xs => if p x then takeRun p xs + 1 else 0

/-- The list `[n, n-1, ..., lo]` (empty when `n < lo`): the greedy
preference order for how many characters a quantifier consumes. -/
def descCounts (lo n : Nat) : List Nat :=
  if n < lo then [] else (List.range (n - lo + 1)).reverse.map (· + lo)

/-- The list `[lo, ..., n]`: the lazy preference order. -/
def ascCounts (lo n : Nat) : List Nat :=
  if n < lo then [] else (List.range (n - lo + 1)).map (· + lo)

/-- Backtracking matcher.  `matchRe r s` returns, in the engine's
backtracking preference order, every way `r` can match a prefix of
`s`: the remaining suffix paired with the span captured by `Re.group`
(if the group participated in the match). -/
def matchRe : Re → List Char → List (List Char × Option (List Char))
  | Re.eps, s => [(s, none)]
  | Re.lit c, s =>
      match s with
      | [] => []
      | x :: xs => if x = c then [(xs, none)] else []
  | Re.cls p, s =>
      match s with
      | [] => []
      | x :: xs => if p x then [(xs, none)] else []
  | Re.seq a b, s =>
      (matchRe a s).flatMap (fun pr =>
        (matchRe b pr.1).map (fun qr => (qr.1, pr.2.orElse (fun _ => qr.2))))
  | Re.alt a b, s => matchRe a s ++ matchRe b s
  | Re.opt a, s => matchRe a s ++ [(s, none)]
  | Re.starCls p, s =>
      (descCounts 0 (takeRun p s)).map (fun i => (s.drop i, none))
  | Re.lazyStarCls p, s =>
      (ascCounts 0 (takeRun p s)).map (fun i => (s.drop i, none))
  | Re.plusCls p, s =>
      (descCounts 1 (takeRun p s)).map (fun i => (s.drop i, none))
  | Re.repAtLeast p lo, s =>
      (descCounts lo (takeRun p s)).map (fun i => (s.drop i, none))
  | Re.repRange p lo hi, s =>
      (descCounts lo (min (takeRun p s) hi)).map (fun i => (s.drop i, none))
  | Re.group a, s =>
      (matchRe a s).map (fun pr => (pr.1, some (s.take (s.length - pr.1.length))))

/-- `re.search(patron, texto)` followed by `m.group(1)`: try each start
position from the left; at the first position where the pattern
matches, return the first (most-preferred) match's captured group.
`none` means no match anywhere; `some none` would mean the group did
not participate (impossible for the patterns below, whose group is in
mandatory position). -/
def searchCap (r : Re) : List Char → Option (Option (List Char))
  | [] => (matchRe r []).head?.map (fun pr => pr.2)
  | x :: xs =>
      match (matchRe r (x :: xs)).head? with
      | some pr => some pr.2
      | none => searchCap r xs

/-- `[°º]`, the degree/ordinal signs after "N" in several labels. -/
def clsDeg (c : Char) : Bool := c = '°' || c = 'º'

/-- `[A-Z]`. -/
def isUpperAscii (c : Char) : Bool := 'A' ≤ c && c ≤ 'Z'

/-- `[0-9]` (also `\d`). -/
def isDigitCh (c : Char) : Bool := '0' ≤ c && c ≤ '9'

/-- `[A-Z0-9\/\.\-]`, the NUM_POL value class. -/
def clsNumPol (c : Char) : Bool :=
  isUpperAscii c || isDigitCh c || c = '/' || c = '.' || c = '-'

/-- `[A-Z$\/\.]`, the currency-symbol class. -/
def clsMoney (c : Char) : Bool :=
  isUpperAscii c || c = '$' || c = '/' || c = '.'

/-- `[0-9 ]`, digits and spaces (dates / document numbers). -/
def clsDigitSpace (c : Char) : Bool := isDigitCh c || c = ' '

/-- `[\d,\.]`, the tail of a formatted number. -/
def clsNumTail (c : Char) : Bool := isDigitCh c || c = ',' || c = '.'

/-- `[A-ZÁÉÍÓÚ]`, uppercase words with Spanish accents. -/
def clsUpperAcc (c : Char) : Bool :=
  isUpperAscii c || c = 'Á' || c = 'É' || c = 'Í' || c = 'Ó' || c = 'Ú'

/-- `[\s\S]`, any character. -/
def clsAny (_ : Char) : Bool := true

/-- `\s+` -/
def reSp : Re := Re.plusCls pySpace

/-- `[\s\n]*` (`\n` is already in `\s`, so this is `\s*`). -/
def reSpN : Re := Re.starCls pySpace

/-- `\s*` -/
def reSpStar : Re := Re.starCls pySpace

/-- `[A-Z$\/\.]+\s*\d[\d,\.]*` — a currency symbol then a number, as
captured by REM_BASE, K_SEPELIO and P_UNICA. -/
def reMoneyNum : Re :=
  seqs [Re.plusCls clsMoney, reSpStar, Re.cls isDigitCh, Re.starCls clsNumTail]

/-- `PÓLIZA\s+N[°º]\s*([A-Z0-9\/\.\-]+)` -/
def patNUM_POL : Re :=
  seqs [reStr "PÓLIZA", reSp, Re.lit 'N', Re.cls clsDeg, reSpStar,
        Re.group (Re.plusCls clsNumPol)]

/-- `MONTO\s+PRIMA\s+ÚNICA[\s\n]*([A-Z$\/\.]+)` -/
def patMON : Re :=
  seqs [reStr "MONTO", reSp, reStr "PRIMA", reSp, reStr "ÚNICA", reSpN,
        Re.group (Re.plusCls clsMoney)]

/-- `N[°º][\s\n]*([0-9 ]{8,})` -/
def patNUM_DOC : Re :=
  seqs [Re.lit 'N', Re.cls clsDeg, reSpN,
        Re.group (Re.repAtLeast clsDigitSpace 8)]

/-- `FECHA\s+DE\s+NACIMIENTO[\s\n]*([0-9 ]{6,})` -/
def patFEC_NAC : Re :=
  seqs [reStr "FECHA", reSp, reStr "DE", reSp, reStr "NACIMIENTO", reSpN,
        Re.group (Re.repAtLeast clsDigitSpace 6)]

/-- `FECHA(?:\s+DE)?\s+INICIO\s+VIGENCIA\s+(?:DE\s+LA\s+PÓLIZA|DEL\s+PG)[\s\n]*([0-9 ]{6,})` -/
def patINI_VIG_POL : Re :=
  seqs [reStr "FECHA", Re.opt (seqs [reSp, reStr "DE"]), reSp,
        reStr "INICIO", reSp, reStr "VIGENCIA", reSp,
        Re.alt (seqs [reStr "DE", reSp, reStr "LA", reSp, reStr "PÓLIZA"])
               (seqs [reStr "DEL", reSp, reStr "PG"]),
        reSpN, Re.group (Re.repAtLeast clsDigitSpace 6)]

/-- `FECHA(?:\s+DE)?\s+FIN\s+VIGENCIA\s+(?:DE\s+LA\s+PÓLIZA|DEL\s+PG)[\s\n]*([0-9 ]{6,})` -/
def patFIN_VIG_POL : Re :=
  seqs [reStr "FECHA", Re.opt (seqs [reSp, reStr "DE"]), reSp,
        reStr "FIN", reSp, reStr "VIGENCIA", reSp,
        Re.alt (seqs [reStr "DE", reSp, reStr "LA", reSp, reStr "PÓLIZA"])
               (seqs [reStr "DEL", reSp, reStr "PG"]),
        reSpN, Re.group (Re.repAtLeast clsDigitSpace 6)]

/-- `DIFERIMIENTO\s+DEL\s+PAGO\s*\(N[°º]\s*DE\s+AÑOS\)[\s\n]*([0-9]{1,3})` -/
def patPER_DIF : Re :=
  seqs [reStr "DIFERIMIENTO", reSp, reStr "DEL", reSp, reStr "PAGO", reSpStar,
        Re.lit '(', Re.lit 'N', Re.cls clsDeg, reSpStar,
        reStr "DE", reSp, reStr "AÑOS", Re.lit ')', reSpN,
        Re.group (Re.repRange isDigitCh 1 3)]

/-- `N[°º]\s*MESES\s+PERIODO\s+GARANTIZADO\s*\(PG\)[\s\n]*([0-9]{1,3})` -/
def patPER_GAR : Re :=
  seqs [Re.lit 'N', Re.cls clsDeg, reSpStar, reStr "MESES", reSp,
        reStr "PERIODO", reSp, reStr "GARANTIZADO", reSpStar,
        reStr "(PG)", reSpN, Re.group (Re.repRange isDigitCh 1 3)]

/-- `MONTO\s+RENTA\s+BASE[\s\S]*?([A-Z$\/\.]+\s*\d[\d,\.]*)` -/
def patREM_BASE : Re :=
  seqs [reStr "MONTO", reSp, reStr "RENTA", reSp, reStr "BASE",
        Re.lazyStarCls clsAny, Re.group reMoneyNum]

/-- `PERIODICIDAD\s+DEL\s+PAGO[\s\n]*([A-ZÁÉÍÓÚ]+)` -/
def patPER_PAGO_RENTA : Re :=
  seqs [reStr "PERIODICIDAD", reSp, reStr "DEL", reSp, reStr "PAGO", reSpN,
        Re.group (Re.plusCls clsUpperAcc)]

/-- `SUMA\s+ASEGURADA\s+COB\.?\s+DE\s+SEPELIO[\s\n]*([A-Z$\/\.]+\s*\d[\d,\.]*)` -/
def patK_SEPELIO : Re :=
  seqs [reStr "SUMA", reSp, reStr "ASEGURADA", reSp, reStr "COB",
        Re.opt (Re.lit '.'), reSp, reStr "DE", reSp, reStr "SEPELIO", reSpN,
        Re.group reMoneyNum]

/-- `MONTO\s+PRIMA\s+ÚNICA[\s\n]*([A-Z$\/\.]+\s*\d[\d,\.]*)` -/
def patP_UNICA : Re :=
  seqs [reStr "MONTO", reSp, reStr "PRIMA", reSp, reStr "ÚNICA", reSpN,
        Re.group reMoneyNum]

/-- `MONTO\s+DE\s+DEVOLUCIÓN\s+DE\s+PRIMA[\s\n]*([0-9]+%?)` -/
def patPORC_DEV_PRIMA : Re :=
  seqs [reStr "MONTO", reSp, reStr "DE", reSp, reStr "DEVOLUCIÓN", reSp,
        reStr "DE", reSp, reStr "PRIMA", reSpN,
        Re.group (Re.seq (Re.plusCls isDigitCh) (Re.opt (Re.lit '%')))]

/-- `(?:TASA\s+DE\s+VENTA\s+DE\s+LA\s+PÓLIZA(?:\s*\(TV\))?|TASA\s+DE\s+VENTA\s*\(TV\)\s*DE\s+LA\s+PÓLIZA)[\s\n]*([0-9]+(?:\.[0-9]+)?)\s*%?` -/
def patTASA_VENTA : Re :=
  seqs [Re.alt
          (seqs [reStr "TASA", reSp, reStr "DE", reSp, reStr "VENTA", reSp,
                 reStr "DE", reSp, reStr "LA", reSp, reStr "PÓLIZA",
                 Re.opt (seqs [reSpStar, reStr "(TV)"])])
          (seqs [reStr "TASA", reSp, reStr "DE", reSp, reStr "VENTA",
                 reSpStar, reStr "(TV)", reSpStar,
                 reStr "DE", reSp, reStr "LA", reSp, reStr "PÓLIZA"]),
        reSpN,
        Re.group (Re.seq (Re.plusCls isDigitCh)
                         (Re.opt (Re.seq (Re.lit '.') (Re.plusCls isDigitCh)))),
        reSpStar, Re.opt (Re.lit '%')]

/-- The schema constant of lines 20-24. -/
def CAMPOS : List String :=
  ["NUM_POL", "MON", "NUM_DOC", "FEC_NAC", "INI_VIG_POL", "FIN_VIG_POL",
   "PER_DIF", "PER_GAR", "REM_BASE", "PER_PAGO_RENTA",
   "K_SEPELIO", "P_UNICA", "PORC_DEV_PRIMA", "TASA_VENTA"]

/-- The pattern registry of lines 26-41, in source order. -/
def PATRONES : List (String × Re) :=
  [("NUM_POL", patNUM_POL), ("MON", patMON), ("NUM_DOC", patNUM_DOC),
   ("FEC_NAC", patFEC_NAC), ("INI_VIG_POL", patINI_VIG_POL),
   ("FIN_VIG_POL", patFIN_VIG_POL), ("PER_DIF", patPER_DIF),
   ("PER_GAR", patPER_GAR), ("REM_BASE", patREM_BASE),
   ("PER_PAGO_RENTA", patPER_PAGO_RENTA), ("K_SEPELIO", patK_SEPELIO),
   ("P_UNICA", patP_UNICA), ("PORC_DEV_PRIMA", patPORC_DEV_PRIMA),
   ("TASA_VENTA", patTASA_VENTA)]

/-- `PATRONES[campo]`.  Every name in `CAMPOS` is a key of `PATRONES`
(proved below), so the default is never reached on the program's own
accesses. -/
def patronOf (campo : String) : Re :=
  (PATRONES.lookup campo).getD Re.eps

/-- Lines 61-66: `re.search` the pattern; on no match return `""`;
on a match return the captured group with all whitespace deleted
(`re.sub(r"\s+", "", ...)`) and then stripped (`.strip()`, a no-op
after the deletion). -/
def extraer_campo (texto : String) (patron : Re) : String :=
  match searchCap patron texto.data with
  | none => ""
  | some none => ""
  | some (some cap) => String.mk (pyStrip (condense cap))

/-- One uploaded document after text extraction: its filename and the
text the extraction collaborator produced (possibly empty). -/
structure DocInput where
  name : String
  texto : String

/-- One row of the error table: `{"ARCHIVO": ..., "ERROR": ...}`. -/
structure ErrEntry where
  archivo : String
  error : String
deriving DecidableEq, Repr

/-- A document record: the Python dict in insertion order
(`"ARCHIVO"` first, then the fields in `CAMPOS` order). -/
abbrev Record := List (String × String)

/-- Python `str.upper()` restricted to the alphabet these documents and
patterns use (ASCII letters and the Spanish lowercase vowels/ñ). -/
def pyUpperChar (c : Char) : Char :=
  if 'a' ≤ c && c ≤ 'z' then Char.toUpper c
  else if c = 'á' then 'Á'
  else if c = 'é' then 'É'
  else if c = 'í' then 'Í'
  else if c = 'ó' then 'Ó'
  else if c = 'ú' then 'Ú'
  else if c = 'ñ' then 'Ñ'
  else c

/-- `texto.upper()`. -/
def pyUpper (s : String) : String :=
  String.mk (s.data.map pyUpperChar)

/-- Line 117: `texto_proc = texto.upper() if to_upper else texto`. -/
def textoProc (toUpper : Bool) (texto : String) : String :=
  if toUpper then pyUpper texto else texto

/-- Lines 125-130, one iteration of the field loop under an explicit
evaluator standing for the possibly-raising call
`extraer_campo(texto_proc, PATRONES[campo])`: a normal result `valor`
stores `valor if valor else "0"` and adds no error; a raised fault `e`
stores `"0"` and adds the single error `f"{campo}: {e}"` for this
document.  The real program's evaluator is `evalReal`. -/
def campoStep (ev : String → Re → Except String String)
    (name texto campo : String) : String × List ErrEntry :=
  match ev texto (patronOf campo) with
  | Except.ok valor => (if valor = "" then "0" else valor, [])
  | Except.error e => ("0", [⟨name, campo ++ ": " ++ e⟩])

/-- The field loop of lines 124-130 over an explicit list of field
names: the record entries in insertion order and the errors appended,
in order. -/
def filaCampos (ev : String → Re → Except String String)
    (name texto : String) : List String → Record × List ErrEntry
  | [] => ([], [])
  | campo :: rest =>
      let st := campoStep ev name texto campo
      let tl := filaCampos ev name texto rest
      ((campo, st.1) :: tl.1, st.2 ++ tl.2)

/-- Lines 123-130: the full record for one document
(`fila = {"ARCHIVO": file.name}` then the field loop) and its errors. -/
def filaGen (ev : String → Re → Except String String)
    (name texto : String) : Record × List ErrEntry :=
  (("ARCHIVO", name) :: (filaCampos ev name texto CAMPOS).1,
   (filaCampos ev name texto CAMPOS).2)

/-- The document-level error message of line 113. -/
def emptyTextError (name : String) : ErrEntry :=
  ⟨name, "Texto vacío o no extraíble"⟩

/-- Lines 109-133: the batch loop.  For each document in order: if the
text is blank, append one document-level error and continue without a
record; otherwise optionally uppercase, build the record via the field
loop, and append it to `registros` and its errors to `errores`. -/
def procesarGen (ev : String → Re → Except String String)
    (toUpper : Bool) : List DocInput → List Record × List ErrEntry
  | [] => ([], [])
  | f :: rest =>
      if pyIsBlank f.texto then
        let tl := procesarGen ev toUpper rest
        (tl.1, emptyTextError f.name :: tl.2)
      else
        let fr := filaGen ev f.name (textoProc toUpper f.texto)
        let tl := procesarGen ev toUpper rest
        (fr.1 :: tl.1, fr.2 ++ tl.2)

/-- The real evaluator: `extraer_campo` is a total Lean function, so it
always returns normally. -/
def evalReal (texto : String) (patron : Re) : Except String String :=
  Except.ok (extraer_campo texto patron)

/-- The program's batch loop. -/
def procesar (toUpper : Bool) (files : List DocInput) :
    List Record × List ErrEntry :=
  procesarGen evalReal toUpper files

/-- The value stored for one field on the non-faulting path:
`valor if valor else "0"` with `valor = extraer_campo(texto, PATRONES[campo])`. -/
def campoVal (texto campo : String) : String :=
  let valor := extraer_campo texto (patronOf campo)
  if valor = "" then "0" else valor

theorem mem_of_mem_dropWhileSpace {p : Char → Bool} {l : List Char} {c : Char}
    (h : c ∈ l.dropWhile p) : c ∈ l := by
  induction l with
  | nil => simp at h
  | cons x xs ih =>
      rw [List.dropWhile_cons] at h
      by_cases hx : p x
      · simp only [hx, if_pos] at h
        exact List.mem_cons_of_mem _ (ih h)
      · simpa [hx] using h

theorem mem_of_mem_pyStrip {l : List Char} {c : Char}
    (h : c ∈ pyStrip l) : c ∈ l := by
  unfold pyStrip at h
  rw [List.mem_reverse] at h
  have h1 := mem_of_mem_dropWhileSpace h
  rw [List.mem_reverse] at h1
  exact mem_of_mem_dropWhileSpace h1

theorem pySpace_of_mem_condense {l : List Char} {c : Char}
    (h : c ∈ condense l) : pySpace c = false := by
  unfold condense at h
  have := (List.mem_filter.mp h).2
  simpa using this

/-- Every character of an `extraer_campo` result is non-whitespace. -/
theorem extraer_campo_no_space (texto : String) (patron : Re) (c : Char)
    (h : c ∈ (extraer_campo texto patron).data) : pySpace c = false := by
  unfold extraer_campo at h
  cases hs : searchCap patron texto.data with
  | none => rw [hs] at h; simp at h
  | some o =>
      cases o with
      | none => rw [hs] at h; simp at h
      | some cap =>
          rw [hs] at h
          exact pySpace_of_mem_condense (mem_of_mem_pyStrip h)

theorem campoStep_real (name texto campo : String) :
    campoStep evalReal name texto campo = (campoVal texto campo, []) := rfl

theorem filaCampos_real (name texto : String) (l : List String) :
    filaCampos evalReal name texto l =
      (l.map (fun c => (c, campoVal texto c)), []) := by
  induction l with
  | nil => rfl
  | cons campo rest ih => simp [filaCampos, campoStep_real, ih]

theorem lookup_cons_ne (k v c : String) (l : Record)
    (h : (c == k) = false) :
    List.lookup c ((k, v) :: l) = List.lookup c l := by
  simp [List.lookup, h]

theorem lookup_map_val (f : String → String) (l : List String) (c : String)
    (h : c ∈ l) :
    (l.map (fun x => (x, f x))).lookup c = some (f c) := by
  induction l with
  | nil => simp at h
  | cons x xs ih =>
      by_cases hcx : c = x
      · subst hcx; simp [List.lookup]
      · rw [List.map_cons, lookup_cons_ne _ _ _ _ (by simpa using hcx)]
        exact ih (by rcases List.mem_cons.mp h with rfl | hx
                     · exact absurd rfl hcx
                     · exact hx)

theorem filaGen_eq (name texto : String) :
    (filaGen evalReal name texto).1 =
      ("ARCHIVO", name) :: CAMPOS.map (fun c => (c, campoVal texto c)) := by
  simp [filaGen, filaCampos_real]

theorem filaGen_real_lookup (name texto campo : String) (h : campo ∈ CAMPOS) :
    ((filaGen evalReal name texto).1).lookup campo =
      some (campoVal texto campo) := by
  have hne : (campo == "ARCHIVO") = false := by
    fin_cases h <;> rfl
  rw [filaGen_eq, lookup_cons_ne _ _ _ _ hne]
  exact lookup_map_val _ _ _ h

theorem filaCampos_append (ev : String → Re → Except String String)
    (name texto : String) (l1 l2 : List String) :
    filaCampos ev name texto (l1 ++ l2) =
      ((filaCampos ev name texto l1).1 ++ (filaCampos ev name texto l2).1,
       (filaCampos ev name texto l1).2 ++ (filaCampos ev name texto l2).2) := by
  induction l1 with
  | nil => simp [filaCampos]
  | cons campo rest ih => simp [filaCampos, ih]

theorem procesarGen_records (ev : String → Re → Except String String)
    (toUpper : Bool) (files : List DocInput) :
    (procesarGen ev toUpper files).1 =
      (files.filter (fun f => !pyIsBlank f.texto)).map
        (fun f => (filaGen ev f.name (textoProc toUpper f.texto)).1) := by
  induction files with
  | nil => rfl
  | cons f rest ih =>
      by_cases hb : pyIsBlank f.texto
      · simp [procesarGen, hb, List.filter, ih]
      · simp [procesarGen, hb, List.filter, ih]

theorem lookup_cons_self (k v : String) (l : Record) :
    List.lookup k ((k, v) :: l) = some v := by
  simp [List.lookup]

theorem map_fst_map_val (f : String → String) (l : List String) :
    (l.map (fun x => (x, f x))).map Prod.fst = l := by
  induction l with
  | nil => rfl
  | cons x xs ih => simp [ih]

/-- The two ways `campoVal` can arise: the sentinel `"0"`, or the
condensed captured group of a successful search. -/
theorem campoVal_cases (texto campo : String) :
    campoVal texto campo = "0" ∨
    ∃ cap, searchCap (patronOf campo) texto.data = some (some cap) ∧
      campoVal texto campo = String.mk (pyStrip (condense cap)) := by
  unfold campoVal extraer_campo
  cases hs : searchCap (patronOf campo) texto.data with
  | none => simp
  | some o =>
      cases o with
      | none => simp
      | some cap =>
          by_cases he : String.mk (pyStrip (condense cap)) = ""
          · left; simp [he]
          · right; exact ⟨cap, rfl, by simp [he]⟩

/-- C9: the registry's field list is fixed, non-empty, duplicate-free,
and is exactly the 14-name sequence NUM_POL .. TASA_VENTA, in that
order; every one of these names has a rule registered in `PATRONES`. -/
theorem c9_schema_constant :
    CAMPOS = ["NUM_POL", "MON", "NUM_DOC", "FEC_NAC", "INI_VIG_POL",
              "FIN_VIG_POL", "PER_DIF", "PER_GAR", "REM_BASE",
              "PER_PAGO_RENTA", "K_SEPELIO", "P_UNICA", "PORC_DEV_PRIMA",
              "TASA_VENTA"] ∧
    CAMPOS ≠ [] ∧ CAMPOS.Nodup ∧
    ∀ campo ∈ CAMPOS, (PATRONES.lookup campo).isSome := by
  refine ⟨rfl, by decide, by decide, by decide⟩

/-- C2: on empty or all-whitespace text the batch loop appends exactly
one document-level error ("Texto vacío o no extraíble"), produces no
record for that document, evaluates no field rule (the outcome is the
same for every evaluator `ev`), and continues with the remaining
documents of the batch. -/
theorem c2_empty_text_short_circuit
    (ev : String → Re → Except String String) (toUpper : Bool)
    (name texto : String) (rest : List DocInput)
    (h : pyIsBlank texto = true) :
    procesarGen ev toUpper (⟨name, texto⟩ :: rest) =
      ((procesarGen ev toUpper rest).1,
       emptyTextError name :: (procesarGen ev toUpper rest).2) := by
  simp [procesarGen, h]

theorem c2_empty_text_short_circuit_witness :
    pyIsBlank "" = true ∧
    procesarGen evalReal true [⟨"doc.pdf", ""⟩] =
      ((procesarGen evalReal true []).1,
       emptyTextError "doc.pdf" :: (procesarGen evalReal true []).2) :=
  ⟨rfl, c2_empty_text_short_circuit evalReal true "doc.pdf" "" [] rfl⟩

/-- C3: when a field's rule does not match, or matches with a capture
that condenses to the empty string, the field loop stores the sentinel
"0" for that field and appends no error. -/
theorem c3_no_match_is_sentinel_not_error (name texto campo : String)
    (h : searchCap (patronOf campo) texto.data = none ∨
         ∃ cap, searchCap (patronOf campo) texto.data = some (some cap) ∧
                pyStrip (condense cap) = []) :
    campoStep evalReal name texto campo = ("0", []) := by
  rw [campoStep_real]
  have hval : extraer_campo texto (patronOf campo) = "" := by
    unfold extraer_campo
    rcases h with h | ⟨cap, h1, h2⟩
    · rw [h]
    · rw [h1]
      show String.mk (pyStrip (condense cap)) = ""
      rw [h2]
  rw [show campoVal texto campo = "0" by simp [campoVal, hval]]

theorem c3_no_match_is_sentinel_not_error_witness :
    searchCap (patronOf "NUM_POL") "X".data = none ∧
    campoStep evalReal "doc.pdf" "X" "NUM_POL" = ("0", []) :=
  ⟨by decide,
   c3_no_match_is_sentinel_not_error "doc.pdf" "X" "NUM_POL" (Or.inl (by decide))⟩

/-- C8: the result table is exactly the records of the non-blank
documents, in submission order (the blank ones are filtered out, the
relative order of the rest is preserved). -/
theorem c8_batch_preserves_order (toUpper : Bool) (files : List DocInput) :
    (procesar toUpper files).1 =
      (files.filter (fun f => !pyIsBlank f.texto)).map
        (fun f => (filaGen evalReal f.name (textoProc toUpper f.texto)).1) :=
  procesarGen_records evalReal toUpper files

/-- C1: for a document whose text is non-blank, the loop produces
exactly one record whose keys are "ARCHIVO" followed by the 14
registered fields, each exactly once; the ARCHIVO entry is the
filename, and every field's entry is either the condensed captured
group of that field's rule on the processed text or the sentinel "0". -/
theorem c1_record_one_entry_per_field (toUpper : Bool) (name texto : String)
    (h : pyIsBlank texto = false) :
    ∃ r : Record,
      procesar toUpper [⟨name, texto⟩] =
        ([r], (filaGen evalReal name (textoProc toUpper texto)).2) ∧
      r.map Prod.fst = "ARCHIVO" :: CAMPOS ∧
      (r.map Prod.fst).Nodup ∧
      r.lookup "ARCHIVO" = some name ∧
      ∀ campo ∈ CAMPOS, ∃ v, r.lookup campo = some v ∧
        (v = "0" ∨ ∃ cap,
          searchCap (patronOf campo) (textoProc toUpper texto).data =
            some (some cap) ∧
          v = String.mk (pyStrip (condense cap))) := by
  refine ⟨(filaGen evalReal name (textoProc toUpper texto)).1, ?_, ?_, ?_, ?_, ?_⟩
  · simp [procesar, procesarGen, h]
  · rw [filaGen_eq, List.map_cons, map_fst_map_val]
  · rw [filaGen_eq, List.map_cons, map_fst_map_val]
    show ("ARCHIVO" :: CAMPOS).Nodup
    decide
  · rw [filaGen_eq]
    exact lookup_cons_self _ _ _
  · intro campo hc
    refine ⟨campoVal (textoProc toUpper texto) campo,
      filaGen_real_lookup name (textoProc toUpper texto) campo hc, ?_⟩
    exact campoVal_cases (textoProc toUpper texto) campo

theorem c1_record_one_entry_per_field_witness :
    pyIsBlank "X" = false ∧
    (∃ r : Record,
      procesar false [⟨"doc.pdf", "X"⟩] =
        ([r], (filaGen evalReal "doc.pdf" (textoProc false "X")).2) ∧
      r.map Prod.fst = "ARCHIVO" :: CAMPOS ∧
      (r.map Prod.fst).Nodup ∧
      r.lookup "ARCHIVO" = some "doc.pdf" ∧
      ∀ campo ∈ CAMPOS, ∃ v, r.lookup campo = some v ∧
        (v = "0" ∨ ∃ cap,
          searchCap (patronOf campo) (textoProc false "X").data =
            some (some cap) ∧
          v = String.mk (pyStrip (condense cap)))) :=
  ⟨rfl, c1_record_one_entry_per_field false "doc.pdf" "X" rfl⟩

/-- The evaluator used by the C4 witness: every rule evaluation raises. -/
def evBoom : String → Re → Except String String :=
  fun _ _ => Except.error "boom"

/-- C4: a fault raised while evaluating one field's rule is caught:
that field's entry becomes the sentinel "0", exactly one error naming
the document and the field (with the fault text) is appended between
the errors of the preceding and the remaining fields, the remaining
fields of the document are still processed, the record is still
produced, and the remaining documents of the batch are still
processed. -/
theorem c4_field_fault_isolated
    (ev : String → Re → Except String String) (toUpper : Bool)
    (name texto msg campo : String) (pre rest : List String)
    (files : List DocInput)
    (hC : CAMPOS = pre ++ campo :: rest)
    (hb : pyIsBlank texto = false)
    (hf : ev (textoProc toUpper texto) (patronOf campo) = Except.error msg) :
    procesarGen ev toUpper (⟨name, texto⟩ :: files) =
      ((("ARCHIVO", name) ::
          ((filaCampos ev name (textoProc toUpper texto) pre).1 ++
            (campo, "0") ::
              (filaCampos ev name (textoProc toUpper texto) rest).1))
         :: (procesarGen ev toUpper files).1,
       ((filaCampos ev name (textoProc toUpper texto) pre).2 ++
          ⟨name, campo ++ ": " ++ msg⟩ ::
            (filaCampos ev name (textoProc toUpper texto) rest).2) ++
         (procesarGen ev toUpper files).2) := by
  have hstep : campoStep ev name (textoProc toUpper texto) campo =
      ("0", [⟨name, campo ++ ": " ++ msg⟩]) := by
    simp [campoStep, hf]
  have hmid : filaCampos ev name (textoProc toUpper texto) (campo :: rest) =
      ((campo, "0") ::
         (filaCampos ev name (textoProc toUpper texto) rest).1,
       ⟨name, campo ++ ": " ++ msg⟩ ::
         (filaCampos ev name (textoProc toUpper texto) rest).2) := by
    simp [filaCampos, hstep]
  have hfull : filaCampos ev name (textoProc toUpper texto) CAMPOS =
      ((filaCampos ev name (textoProc toUpper texto) pre).1 ++
         (campo, "0") ::
           (filaCampos ev name (textoProc toUpper texto) rest).1,
       (filaCampos ev name (textoProc toUpper texto) pre).2 ++
         ⟨name, campo ++ ": " ++ msg⟩ ::
           (filaCampos ev name (textoProc toUpper texto) rest).2) := by
    rw [hC, filaCampos_append, hmid]
  simp only [procesarGen, hb, Bool.false_eq_true, if_false, filaGen, hfull]

theorem c4_field_fault_isolated_witness :
    (CAMPOS = [] ++ "NUM_POL" :: CAMPOS.tail) ∧
    (pyIsBlank "X" = false) ∧
    (evBoom (textoProc false "X") (patronOf "NUM_POL") =
      Except.error "boom") ∧
    procesarGen evBoom false [⟨"doc.pdf", "X"⟩] =
      ((("ARCHIVO", "doc.pdf") ::
          ((filaCampos evBoom "doc.pdf" (textoProc false "X") []).1 ++
            ("NUM_POL", "0") ::
              (filaCampos evBoom "doc.pdf" (textoProc false "X")
                CAMPOS.tail).1))
         :: (procesarGen evBoom false []).1,
       ((filaCampos evBoom "doc.pdf" (textoProc false "X") []).2 ++
          ⟨"doc.pdf", "NUM_POL" ++ ": " ++ "boom"⟩ ::
            (filaCampos evBoom "doc.pdf" (textoProc false "X")
              CAMPOS.tail).2) ++
         (procesarGen evBoom false []).2) :=
  ⟨rfl, rfl, rfl,
   c4_field_fault_isolated evBoom false "doc.pdf" "X" "boom" "NUM_POL"
     [] CAMPOS.tail [] rfl rfl rfl⟩

/-- C5: a successful match yields exactly the captured group with all
whitespace removed; hence no character of an `extraer_campo` result is
whitespace, and every non-sentinel field value of a record is free of
whitespace characters. -/
theorem c5_values_whitespace_free (texto : String) (patron : Re)
    (cap : List Char) (name campo v : String)
    (hm : searchCap patron texto.data = some (some cap)) :
    extraer_campo texto patron = String.mk (pyStrip (condense cap)) ∧
    (∀ c ∈ (extraer_campo texto patron).data, pySpace c = false) ∧
    (campo ∈ CAMPOS →
      ((filaGen evalReal name texto).1).lookup campo = some v →
      v ≠ "0" → ∀ c ∈ v.data, pySpace c = false) := by
  refine ⟨?_, ?_, ?_⟩
  · unfold extraer_campo
    rw [hm]
  · intro c hc
    exact extraer_campo_no_space texto patron c hc
  · intro hcampo hlook hv c hc
    rw [filaGen_real_lookup name texto campo hcampo] at hlook
    have hvv : campoVal texto campo = v := Option.some.inj hlook
    have : v = extraer_campo texto (patronOf campo) := by
      by_cases he : extraer_campo texto (patronOf campo) = ""
      · exfalso
        apply hv
        rw [← hvv]
        simp [campoVal, he]
      · rw [← hvv]
        simp [campoVal, he]
    rw [this] at hc
    exact extraer_campo_no_space texto (patronOf campo) c hc

theorem c5_values_whitespace_free_witness :
    searchCap (patronOf "NUM_POL") "PÓLIZA N° AB-123/45".data =
      some (some "AB-123/45".data) ∧
    (extraer_campo "PÓLIZA N° AB-123/45" (patronOf "NUM_POL") =
        String.mk (pyStrip (condense "AB-123/45".data)) ∧
      (∀ c ∈ (extraer_campo "PÓLIZA N° AB-123/45"
          (patronOf "NUM_POL")).data, pySpace c = false) ∧
      ("NUM_POL" ∈ CAMPOS →
        ((filaGen evalReal "doc.pdf" "PÓLIZA N° AB-123/45").1).lookup
            "NUM_POL" = some "AB-123/45" →
        "AB-123/45" ≠ "0" →
        ∀ c ∈ "AB-123/45".data, pySpace c = false)) :=
  ⟨by decide,
   c5_values_whitespace_free "PÓLIZA N° AB-123/45" (patronOf "NUM_POL")
     "AB-123/45".data "doc.pdf" "NUM_POL" "AB-123/45" (by decide)⟩

/-- The document text of the spec's whitespace-normalization example:
the full FECHA DE NACIMIENTO label followed by a date broken across
lines with slashes. -/
def fecFrag : String := "FECHA DE NACIMIENTO\n  01 / 01 /\n1990"

/-- C6 counterexample: on the spec's own example text the FEC_NAC rule
produces NO capture at all — its capture class `[0-9 ]` admits only
digits and spaces, and every run of such characters in the example is
shorter than the required 6 (the `/` characters break the runs) — so
`extraer_campo` returns `""`, not a condensed capture. -/
theorem c6_fec_nac_no_capture_counterexample :
    searchCap (patronOf "FEC_NAC") fecFrag.data = none ∧
    extraer_campo fecFrag (patronOf "FEC_NAC") = "" := by
  constructor
  · decide
  · decide

/-- C6 (amended): for the document text
"FECHA DE NACIMIENTO\n  01 / 01 /\n1990" the FEC_NAC rule does not
match (the capture class `[0-9 ]` excludes `/`, and at most 5
consecutive digit-or-space characters follow the label), so the field
loop stores the missing-sentinel "0" for FEC_NAC. -/
theorem c6_fec_nac_sentinel_on_slashed_date :
    extraer_campo fecFrag (patronOf "FEC_NAC") = "" ∧
    campoVal fecFrag "FEC_NAC" = "0" := by
  constructor
  · decide
  · decide

/-- The document text of the C7 scenario: both labels with their
values. -/
def textoC7 : String :=
  "PÓLIZA N° AB-123/45\nTASA DE VENTA DE LA PÓLIZA 3.5%"

/-- C7: on a text containing "PÓLIZA N° AB-123/45" and
"TASA DE VENTA DE LA PÓLIZA 3.5%", the record's NUM_POL entry is
"AB-123/45" and its TASA_VENTA entry is "3.5" (the percent sign is
outside the capture). -/
theorem c7_scenario_num_pol_tasa_venta :
    ((filaGen evalReal "doc.pdf" textoC7).1).lookup "NUM_POL" =
      some "AB-123/45" ∧
    ((filaGen evalReal "doc.pdf" textoC7).1).lookup "TASA_VENTA" =
      some "3.5" := by
  constructor
  · rw [filaGen_real_lookup _ _ _ (by decide)]
    decide
  · rw [filaGen_real_lookup _ _ _ (by decide)]
    decide

/-- The document text of the C10 scenario: a devolution amount whose
captured value is literally "0". -/
def textoC10 : String := "MONTO DE DEVOLUCIÓN DE PRIMA 0"

/-- C10: the PORC_DEV_PRIMA rule matches this text with captured group
"0", so the record stores "0" for a field that WAS found — a stored
value equal to the missing-sentinel. -/
theorem c10_captured_zero_equals_sentinel :
    searchCap (patronOf "PORC_DEV_PRIMA") textoC10.data =
      some (some ['0']) ∧
    extraer_campo textoC10 (patronOf "PORC_DEV_PRIMA") = "0" ∧
    ((filaGen evalReal "doc.pdf" textoC10).1).lookup "PORC_DEV_PRIMA" =
      some "0" := by
  refine ⟨by decide, by decide, ?_⟩
  rw [filaGen_real_lookup _ _ _ (by decide)]
  decide
